import Mathlib

/-!
Shallow embedding of `src/calculator_core.py` of the KaCalc repository.

Modelling conventions:
* Python `int` is `Int` (arbitrary precision in both).
* Python `float` is idealised as `ℚ`: every float literal of the programs we
  reason about (`0.5`, small decimals) is exactly representable, and the
  arithmetic the claims exercise never depends on rounding, overflow to
  infinity, or NaN.  Transcendental library calls (`math.sqrt`, `math.sin`,
  ..., complex power) are foreign float functions; they are kept abstract as
  fields of a `MathLib` parameter, so every theorem quantifies over them.
* Python `complex` values (which arise from `**` on a negative base with a
  non-integer exponent) are pairs of idealised floats.
* Exceptions are modelled with `Except`; each Python exception class that the
  program can raise is a constructor of `PyErr` carrying its message.
* The lazily-advancing `Lexer` (`text`, `pos`) is represented by the remaining
  suffix of the input, which carries the same observable information.
* Python's unbounded recursion is modelled with a fuel parameter; running out
  of fuel corresponds to Python's `RecursionError`, which the façade also
  turns into an `"Error: ..."` string.
-/

/-- The ASCII apostrophe (single-quote) character, used by the Python error
messages produced with `repr`/f-strings. -/
def apos : String := String.singleton (Char.ofNat 39)

/-- Python numeric/None values flowing through the interpreter. -/
inductive PyVal where
  | vInt : Int → PyVal
  | vFloat : ℚ → PyVal
  | vComplex : ℚ → ℚ → PyVal
  | vNone : PyVal
deriving DecidableEq

/-- The exception classes `calculator_core.py` can raise, with their messages
(`LexerError`, `ParserError`, `InterpreterError` are defined in the file;
`ZeroDivisionError` and `TypeError` are Python built-ins; `RecursionError`
models exhaustion of Python's recursion limit). -/
inductive PyErr where
  | lexerError : String → PyErr
  | parserError : String → PyErr
  | interpreterError : String → PyErr
  | zeroDivisionError : String → PyErr
  | typeError : String → PyErr
  | recursionError : String → PyErr
deriving DecidableEq

/-- The message of an exception, as interpolated by `f"Error: {e}"`. -/
def PyErr.msg : PyErr → String
  | .lexerError s => s
  | .parserError s => s
  | .interpreterError s => s
  | .zeroDivisionError s => s
  | .typeError s => s
  | .recursionError s => s

/-- Token-type constants (`NUMBER`, `OPERATOR`, ...). -/
inductive TokenType where
  | NUMBER | OPERATOR | PARENTHESIS | IDENTIFIER | EOF
deriving DecidableEq

/-- The string value of each token-type constant. -/
def TokenType.name : TokenType → String
  | .NUMBER => "NUMBER"
  | .OPERATOR => "OPERATOR"
  | .PARENTHESIS => "PARENTHESIS"
  | .IDENTIFIER => "IDENTIFIER"
  | .EOF => "EOF"

/-- The value slot of a `TOKEN`: an `int` or `float` for numbers, a string for
operators/parentheses/identifiers, `None` for the EOF token. -/
inductive TokVal where
  | vint : Int → TokVal
  | vfloat : ℚ → TokVal
  | vstr : String → TokVal
  | vnone : TokVal
deriving DecidableEq

/-- `class TOKEN`. -/
structure TOKEN where
  type : TokenType
  value : TokVal
deriving DecidableEq

/-- `repr(float)`, idealised: integral values print with a trailing `.0`,
other values as an exact terminating decimal when the denominator divides a
power of ten, and as `num/den` otherwise (non-decimal rationals only arise
from the idealisation, never from real float values). -/
def pyFloatRepr (q : ℚ) : String :=
  if q.den = 1 then toString q.num ++ ".0"
  else
    match (List.range 40).find? (fun k => (q * (10 : ℚ) ^ k).den = 1) with
    | some k =>
        let n : Int := (q * (10 : ℚ) ^ k).num
        let s := toString n.natAbs
        let s := if s.length ≤ k then String.mk (List.replicate (k + 1 - s.length) (Char.ofNat 48)) ++ s else s
        let ip := s.dropRight k
        let fp := s.takeRight k
        (if q < 0 then "-" else "") ++ ip ++ "." ++ fp
    | none => toString q.num ++ "/" ++ toString q.den

/-- `TOKEN.__repr__`: `f"TOKEN({self.type}, {repr(self.value)})"`. -/
def tokenRepr (t : TOKEN) : String :=
  "TOKEN(" ++ t.type.name ++ ", " ++
    (match t.value with
     | .vint n => toString n
     | .vfloat q => pyFloatRepr q
     | .vstr s => apos ++ s ++ apos
     | .vnone => "None") ++ ")"

/-- `BASIC_OPERATORS = ['+', '-', '*', '/']`. -/
def BASIC_OPERATORS : List String := ["+", "-", "*", "/"]

/-- `FUNCTIONS = ['sqrt', 'sin', 'cos', 'tan', 'log', 'ln']`. -/
def FUNCTIONS : List String := ["sqrt", "sin", "cos", "tan", "log", "ln"]

/-- `Lexer.skip_whitespace`: drop leading whitespace from the remaining
input (`Char.isWhitespace` models `str.isspace` on the ASCII inputs the
program handles). -/
def skip_whitespace : List Char → List Char
  | [] => []
  | c :: cs => if c.isWhitespace then skip_whitespace cs else c :: cs

/-- The scanning loop of `Lexer.get_number`: take the maximal run of digits
and decimal points, returning it and the remaining input. -/
def numRun : List Char → List Char × List Char
  | [] => ([], [])
  | c :: cs =>
      if c.isDigit ∨ c = Char.ofNat 46 then
        let p := numRun cs
        (c :: p.1, p.2)
      else ([], c :: cs)

/-- Decimal value of a digit run (the value `int(result)` computes). -/
def digitsVal (ds : List Char) : Nat :=
  ds.foldl (fun a c => 10 * a + (c.toNat - 48)) 0

/-- Value of `float(result)` for a run `ip ++ "." ++ fp` of digits with a
single point (exact rational idealisation of the float literal). -/
def floatRunVal (ip fp : List Char) : ℚ :=
  (digitsVal ip : ℚ) + (digitsVal fp : ℚ) / (10 : ℚ) ^ fp.length

/-- `Lexer.get_number` after the scan: `float(result) if '.' in result else
int(result)`, raising `LexerError` when the conversion fails (which, for a
run starting with a digit, happens exactly when it contains more than one
point). -/
def numFromRun (run : List Char) : Except PyErr TokVal :=
  if run.contains (Char.ofNat 46) then
    match run.splitOn (Char.ofNat 46) with
    | [ip, fp] => .ok (.vfloat (floatRunVal ip fp))
    | _ => .error (.lexerError ("Invalid number format: " ++ String.mk run))
  else .ok (.vint (digitsVal run))

/-- The scanning loop of `Lexer.get_identifier`: maximal run of alphanumeric
or underscore characters. -/
def identRun : List Char → List Char × List Char
  | [] => ([], [])
  | c :: cs =>
      if c.isAlphanum ∨ c = Char.ofNat 95 then
        let p := identRun cs
        (c :: p.1, p.2)
      else ([], c :: cs)

/-- `Lexer.get_next_token`: skip whitespace, then produce one token (and the
rest of the input), or a `LexerError`.  The `*`/`**` look-ahead and the branch
order mirror the source. -/
def get_next_token (input : List Char) : Except PyErr (TOKEN × List Char) :=
  match skip_whitespace input with
  | [] => .ok (⟨.EOF, .vnone⟩, [])
  | c :: rest =>
      if c.isDigit then
        let p := numRun (c :: rest)
        match numFromRun p.1 with
        | .ok v => .ok (⟨.NUMBER, v⟩, p.2)
        | .error e => .error e
      else if c.isAlpha then
        let p := identRun (c :: rest)
        .ok (⟨.IDENTIFIER, .vstr (String.mk p.1)⟩, p.2)
      else if c = '*' then
        match rest with
        | '*' :: r2 => .ok (⟨.OPERATOR, .vstr "**"⟩, r2)
        | _ => .ok (⟨.OPERATOR, .vstr "*"⟩, rest)
      else if BASIC_OPERATORS.contains (String.singleton c) then
        .ok (⟨.OPERATOR, .vstr (String.singleton c)⟩, rest)
      else if c = '(' ∨ c = ')' then
        .ok (⟨.PARENTHESIS, .vstr (String.singleton c)⟩, rest)
      else .error (.lexerError ("Invalid character: " ++ apos ++ String.singleton c ++ apos))

/-- The foreign float library: `math.pi`, `math.e`, the six registered
`math` functions, and the float/complex power routines the `**` operator
delegates to.  Their float behaviour is outside the repository, so every
theorem is stated for an arbitrary `MathLib`. -/
structure MathLib where
  pi : ℚ
  e : ℚ
  sqrt : ℚ → ℚ
  sin : ℚ → ℚ
  cos : ℚ → ℚ
  tan : ℚ → ℚ
  log10 : ℚ → ℚ
  log : ℚ → ℚ
  fpow : ℚ → ℚ → ℚ
  cpow : ℚ → ℚ → ℚ → ℚ → ℚ × ℚ

/-- AST node variants (`Num`, `UnaryOp`, `BinOp`, `FuncCall`). -/
inductive AST where
  | Num : PyVal → AST
  | UnaryOp : String → AST → AST
  | BinOp : AST → String → AST → AST
  | FuncCall : String → AST → AST
deriving DecidableEq

/-- Parser state: the `current_token` and the lexer (remaining input). -/
structure PState where
  cur : TOKEN
  rest : List Char
deriving DecidableEq

/-- `Parser.__init__`: fetch the first token. -/
def parserInit (input : List Char) : Except PyErr PState := do
  let (t, rest) ← get_next_token input
  return ⟨t, rest⟩

/-- `Parser.eat`: check the current token against the expected type (and
optional value), then advance; otherwise raise `ParserError` with the
expected-vs-found message of the source. -/
def eat (st : PState) (ty : TokenType) (tv : Option String) : Except PyErr PState :=
  if st.cur.type = ty ∧ (tv = none ∨ st.cur.value = .vstr (tv.getD "")) then do
    let (t, rest) ← get_next_token st.rest
    return ⟨t, rest⟩
  else
    .error (.parserError ("Invalid syntax. Expected " ++ ty.name ++
      (match tv with
       | some v => " with value " ++ v
       | none => "") ++ ", got " ++ tokenRepr st.cur))

/-- The `PyVal` stored in a `Num` node built from a `NUMBER` token
(`Num(token.value)`); non-numeric payloads cannot occur for `NUMBER` tokens. -/
def numOf : TokVal → PyVal
  | .vint n => .vInt n
  | .vfloat q => .vFloat q
  | _ => .vNone

/-- The string payload of a token (identifier / operator names). -/
def strOf : TokVal → String
  | .vstr s => s
  | _ => ""

mutual

/-- `Parser.factor`, with a fuel argument modelling Python's recursion
limit. -/
def factor (M : MathLib) : Nat → PState → Except PyErr (AST × PState)
  | 0, _ => .error (.recursionError "maximum recursion depth exceeded")
  | f + 1, st =>
      let token := st.cur
      if token.type = .OPERATOR ∧ token.value = .vstr "+" then do
        let st ← eat st .OPERATOR (some "+")
        let (a, st) ← factor M f st
        return (.UnaryOp "+" a, st)
      else if token.type = .OPERATOR ∧ token.value = .vstr "-" then do
        let st ← eat st .OPERATOR (some "-")
        let (a, st) ← factor M f st
        return (.UnaryOp "-" a, st)
      else if token.type = .NUMBER then do
        let st ← eat st .NUMBER none
        return (.Num (numOf token.value), st)
      else if token.type = .PARENTHESIS ∧ token.value = .vstr "(" then do
        let st ← eat st .PARENTHESIS (some "(")
        let (node, st) ← expr M f st
        let st ← eat st .PARENTHESIS (some ")")
        return (node, st)
      else if token.type = .IDENTIFIER then do
        let func_name := strOf token.value
        let st ← eat st .IDENTIFIER none
        if st.cur.type = .PARENTHESIS ∧ st.cur.value = .vstr "(" then
          if func_name ∉ FUNCTIONS then
            .error (.parserError ("Unknown function: " ++ func_name))
          else do
            let st ← eat st .PARENTHESIS (some "(")
            let (argument, st) ← expr M f st
            let st ← eat st .PARENTHESIS (some ")")
            return (.FuncCall func_name argument, st)
        else if func_name = "pi" then return (.Num (.vFloat M.pi), st)
        else if func_name = "e" then return (.Num (.vFloat M.e), st)
        else .error (.parserError ("Unknown constant: " ++ func_name))
      else .error (.parserError ("Unexpected token: " ++ tokenRepr token))

/-- `Parser.power` (right-recursive, hence right-associative `**`). -/
def power (M : MathLib) : Nat → PState → Except PyErr (AST × PState)
  | 0, _ => .error (.recursionError "maximum recursion depth exceeded")
  | f + 1, st => do
      let (node, st) ← factor M f st
      if st.cur.type = .OPERATOR ∧ st.cur.value = .vstr "**" then do
        let st ← eat st .OPERATOR (some "**")
        let (rhs, st) ← power M f st
        return (.BinOp node "**" rhs, st)
      else return (node, st)

/-- `Parser.term`. -/
def term (M : MathLib) : Nat → PState → Except PyErr (AST × PState)
  | 0, _ => .error (.recursionError "maximum recursion depth exceeded")
  | f + 1, st => do
      let (node, st) ← power M f st
      termLoop M f node st

/-- The `while`-loop of `Parser.term` over `*` and `/`. -/
def termLoop (M : MathLib) : Nat → AST → PState → Except PyErr (AST × PState)
  | 0, _, _ => .error (.recursionError "maximum recursion depth exceeded")
  | f + 1, node, st =>
      if st.cur.type = .OPERATOR ∧ (st.cur.value = .vstr "*" ∨ st.cur.value = .vstr "/") then do
        let op := strOf st.cur.value
        let st ← eat st .OPERATOR (some op)
        let (rhs, st) ← power M f st
        termLoop M f (.BinOp node op rhs) st
      else return (node, st)

/-- `Parser.expr`. -/
def expr (M : MathLib) : Nat → PState → Except PyErr (AST × PState)
  | 0, _ => .error (.recursionError "maximum recursion depth exceeded")
  | f + 1, st => do
      let (node, st) ← term M f st
      exprLoop M f node st

/-- The `while`-loop of `Parser.expr` over `+` and `-`. -/
def exprLoop (M : MathLib) : Nat → AST → PState → Except PyErr (AST × PState)
  | 0, _, _ => .error (.recursionError "maximum recursion depth exceeded")
  | f + 1, node, st =>
      if st.cur.type = .OPERATOR ∧ (st.cur.value = .vstr "+" ∨ st.cur.value = .vstr "-") then do
        let op := strOf st.cur.value
        let st ← eat st .OPERATOR (some op)
        let (rhs, st) ← term M f st
        exprLoop M f (.BinOp node op rhs) st
      else return (node, st)

end

/-- `Parser.parse`: a full `expr` followed by `EOF`. -/
def parse (M : MathLib) (fuel : Nat) (st : PState) : Except PyErr AST := do
  let (node, st) ← expr M fuel st
  if st.cur.type ≠ .EOF then
    .error (.parserError ("Unexpected token after expression: " ++ tokenRepr st.cur))
  else return node

/-- Python `value == 0` on the values the interpreter produces. -/
def pyEqZero : PyVal → Bool
  | .vInt n => n = 0
  | .vFloat q => q = 0
  | .vComplex re im => re = 0 ∧ im = 0
  | .vNone => false

/-- Python `value < 0` (used by the `sqrt` domain check); comparing a
`complex` with an `int` raises `TypeError`. -/
def pyLtZero : PyVal → Except PyErr Bool
  | .vInt n => .ok (n < 0)
  | .vFloat q => .ok (q < 0)
  | .vComplex _ _ => .error (.typeError (apos ++ "<" ++ apos ++
      " not supported between instances of " ++ apos ++ "complex" ++ apos ++
      " and " ++ apos ++ "int" ++ apos))
  | .vNone => .error (.typeError (apos ++ "<" ++ apos ++
      " not supported between instances of " ++ apos ++ "NoneType" ++ apos ++
      " and " ++ apos ++ "int" ++ apos))

/-- Python `value <= 0` (used by the `log`/`ln` domain check). -/
def pyLeZero : PyVal → Except PyErr Bool
  | .vInt n => .ok (n ≤ 0)
  | .vFloat q => .ok (q ≤ 0)
  | .vComplex _ _ => .error (.typeError (apos ++ "<=" ++ apos ++
      " not supported between instances of " ++ apos ++ "complex" ++ apos ++
      " and " ++ apos ++ "int" ++ apos))
  | .vNone => .error (.typeError (apos ++ "<=" ++ apos ++
      " not supported between instances of " ++ apos ++ "NoneType" ++ apos ++
      " and " ++ apos ++ "int" ++ apos))

/-- View a numeric value as a complex pair (for Python's numeric promotion). -/
def asC : PyVal → Option (ℚ × ℚ)
  | .vInt n => some ((n : ℚ), 0)
  | .vFloat q => some (q, 0)
  | .vComplex re im => some (re, im)
  | .vNone => none

/-- Message of the `TypeError` raised by arithmetic on `None` (unreachable
from this parser, kept for totality of the binary operators). -/
def unsuppErr : PyErr :=
  .typeError "unsupported operand type(s)"

/-- Python `+` with numeric promotion (`int`+`int` stays `int`). -/
def pyAdd : PyVal → PyVal → Except PyErr PyVal
  | .vInt a, .vInt b => .ok (.vInt (a + b))
  | .vInt a, .vFloat b => .ok (.vFloat ((a : ℚ) + b))
  | .vFloat a, .vInt b => .ok (.vFloat (a + (b : ℚ)))
  | .vFloat a, .vFloat b => .ok (.vFloat (a + b))
  | x, y =>
      match asC x, asC y with
      | some (r1, i1), some (r2, i2) => .ok (.vComplex (r1 + r2) (i1 + i2))
      | _, _ => .error unsuppErr

/-- Python binary `-`. -/
def pySub : PyVal → PyVal → Except PyErr PyVal
  | .vInt a, .vInt b => .ok (.vInt (a - b))
  | .vInt a, .vFloat b => .ok (.vFloat ((a : ℚ) - b))
  | .vFloat a, .vInt b => .ok (.vFloat (a - (b : ℚ)))
  | .vFloat a, .vFloat b => .ok (.vFloat (a - b))
  | x, y =>
      match asC x, asC y with
      | some (r1, i1), some (r2, i2) => .ok (.vComplex (r1 - r2) (i1 - i2))
      | _, _ => .error unsuppErr

/-- Python `*`. -/
def pyMul : PyVal → PyVal → Except PyErr PyVal
  | .vInt a, .vInt b => .ok (.vInt (a * b))
  | .vInt a, .vFloat b => .ok (.vFloat ((a : ℚ) * b))
  | .vFloat a, .vInt b => .ok (.vFloat (a * (b : ℚ)))
  | .vFloat a, .vFloat b => .ok (.vFloat (a * b))
  | x, y =>
      match asC x, asC y with
      | some (r1, i1), some (r2, i2) =>
          .ok (.vComplex (r1 * r2 - i1 * i2) (r1 * i2 + i1 * r2))
      | _, _ => .error unsuppErr

/-- Python `/` (true division: `int`/`int` is a float; the zero check of
`visit_BinOp` happens before this is reached). -/
def pyDiv : PyVal → PyVal → Except PyErr PyVal
  | x, y =>
      match x, y with
      | .vComplex _ _, _ | _, .vComplex _ _ =>
          match asC x, asC y with
          | some (a, b), some (c, d) =>
              let den := c * c + d * d
              .ok (.vComplex ((a * c + b * d) / den) ((b * c - a * d) / den))
          | _, _ => .error unsuppErr
      | _, _ =>
          match asC x, asC y with
          | some (a, _), some (c, _) => .ok (.vFloat (a / c))
          | _, _ => .error unsuppErr

/-- Whether a float value is integral (`y == int(y)`). -/
def isIntq (q : ℚ) : Bool := q.den = 1

/-- Python `**` on two real (non-complex) operands viewed as floats:
an integral exponent keeps the computation real (exact in the `ℚ`
idealisation); a negative base with a non-integer exponent produces a
`complex` via the complex power routine; `0.0` to a negative power raises
`ZeroDivisionError`. -/
def realPow (M : MathLib) (x y : ℚ) : Except PyErr PyVal :=
  if isIntq y then
    if 0 ≤ y then .ok (.vFloat (x ^ y.num.toNat))
    else if x = 0 then
      .error (.zeroDivisionError "0.0 cannot be raised to a negative power")
    else .ok (.vFloat (x⁻¹ ^ (-y.num).toNat))
  else if x < 0 then
    .ok (.vComplex (M.cpow x 0 y 0).1 (M.cpow x 0 y 0).2)
  else if x = 0 then
    if y < 0 then
      .error (.zeroDivisionError "0.0 cannot be raised to a negative power")
    else .ok (.vFloat 0)
  else .ok (.vFloat (M.fpow x y))

/-- Python `**` (`left_val ** right_val`): exact big-integer power for
`int ** int` with a non-negative exponent, float semantics otherwise, and
complex semantics when a complex operand is involved or the base is negative
with a non-integer exponent. -/
def pyPow (M : MathLib) : PyVal → PyVal → Except PyErr PyVal
  | .vInt a, .vInt b =>
      if 0 ≤ b then .ok (.vInt (a ^ b.toNat))
      else if a = 0 then
        .error (.zeroDivisionError "0.0 cannot be raised to a negative power")
      else .ok (.vFloat (((a : ℚ))⁻¹ ^ (-b).toNat))
  | .vInt a, .vFloat b => realPow M (a : ℚ) b
  | .vFloat a, .vInt b => realPow M a (b : ℚ)
  | .vFloat a, .vFloat b => realPow M a b
  | x, y =>
      match asC x, asC y with
      | some (r1, i1), some (r2, i2) =>
          if (r1 = 0 ∧ i1 = 0) ∧ ¬(i2 = 0 ∧ isIntq r2 ∧ 0 ≤ r2) then
            .error (.zeroDivisionError "0.0 to a negative or complex power")
          else .ok (.vComplex (M.cpow r1 i1 r2 i2).1 (M.cpow r1 i1 r2 i2).2)
      | _, _ => .error unsuppErr

/-- The keys of the `Interpreter.functions` dictionary built in
`Interpreter.__init__`. -/
def interpreterFunctions : List String := ["sqrt", "sin", "cos", "tan", "log", "ln"]

/-- Dispatch a registered function name to its `math`-module field. -/
def mathFun (M : MathLib) (name : String) (q : ℚ) : ℚ :=
  if name = "sqrt" then M.sqrt q
  else if name = "sin" then M.sin q
  else if name = "cos" then M.cos q
  else if name = "tan" then M.tan q
  else if name = "log" then M.log10 q
  else if name = "ln" then M.log q
  else 0

/-- Invoke the `math` function on the evaluated argument (`func(argument_val)`);
`math` functions reject complex (and `None`) arguments with `TypeError`. -/
def applyMathFunc (M : MathLib) (name : String) : PyVal → Except PyErr PyVal
  | .vInt n => .ok (.vFloat (mathFun M name (n : ℚ)))
  | .vFloat q => .ok (.vFloat (mathFun M name q))
  | .vComplex _ _ => .error (.typeError ("can" ++ apos ++ "t convert complex to float"))
  | .vNone => .error (.typeError ("must be real number, not NoneType"))

/-- The sign dispatch of `visit_UnaryOp` on the evaluated operand. -/
def unaryApply (op : String) (v : PyVal) : Except PyErr PyVal :=
  if op = "+" then
    match v with
    | .vNone => .error (.typeError "bad operand type for unary +")
    | x => .ok x
  else if op = "-" then
    match v with
    | .vInt n => .ok (.vInt (-n))
    | .vFloat q => .ok (.vFloat (-q))
    | .vComplex re im => .ok (.vComplex (-re) (-im))
    | .vNone => .error (.typeError "bad operand type for unary -")
  else .ok .vNone

/-- The domain checks and invocation of `visit_FuncCall` after the argument
has been evaluated: `sqrt` rejects a negative argument, `log`/`ln` reject a
non-positive argument, then the registered function is invoked. -/
def funcCallApply (M : MathLib) (func_name : String) (argument_val : PyVal) :
    Except PyErr PyVal := do
  let c1 ← if func_name = "sqrt" then pyLtZero argument_val else pure false
  if c1 then .error (.interpreterError "Domain error: sqrt of negative number")
  else do
    let c2 ← if func_name ∈ ["log", "ln"] then pyLeZero argument_val else pure false
    if c2 then .error (.interpreterError "Domain error: log of non-positive number")
    else applyMathFunc M func_name argument_val

/-- The operator dispatch of `visit_BinOp` on the two evaluated operands
(`/` checks for a zero right operand before dividing). -/
def binOpApply (M : MathLib) (op : String) (left_val right_val : PyVal) :
    Except PyErr PyVal :=
  if op = "+" then pyAdd left_val right_val
  else if op = "-" then pySub left_val right_val
  else if op = "*" then pyMul left_val right_val
  else if op = "/" then
    if pyEqZero right_val then .error (.interpreterError "Division by zero")
    else pyDiv left_val right_val
  else if op = "**" then pyPow M left_val right_val
  else .ok .vNone

/-- `Interpreter.visit` / the `visit_*` methods, by structural recursion on
the node (the source's reflection-based dispatch over the same closed set of
variants).  `visit_FuncCall` first looks the name up in the `functions`
dictionary, then evaluates the argument, then applies the domain checks. -/
def evalAST (M : MathLib) : AST → Except PyErr PyVal
  | .Num v => .ok v
  | .UnaryOp op a => do
      let v ← evalAST M a
      unaryApply op v
  | .FuncCall func_name argument =>
      if func_name ∉ interpreterFunctions then
        .error (.interpreterError ("Unknown function: " ++ func_name))
      else do
        let argument_val ← evalAST M argument
        funcCallApply M func_name argument_val
  | .BinOp left op right => do
      let left_val ← evalAST M left
      let right_val ← evalAST M right
      binOpApply M op left_val right_val

/-- Greatest `e` with `10 ^ e ≤ q`, for `q > 0` (helper for the
significant-digit formatter). -/
def qlog10 (q : ℚ) : ℤ :=
  let g : ℤ := (Nat.log 10 q.num.natAbs : ℤ) - (Nat.log 10 q.den : ℤ)
  if q < (10 : ℚ) ^ (g - 1) then g - 2
  else if q < (10 : ℚ) ^ g then g - 1
  else if q < (10 : ℚ) ^ (g + 1) then g
  else g + 1

/-- `f"{result:.10g}"`, idealised: round to 10 significant digits and print
the exact decimal with trailing zeros trimmed.  (CPython also switches to
exponent notation for very large or very small magnitudes and rounds the
underlying binary float; no claim depends on this branch.) -/
def fmtG10 (q : ℚ) : String :=
  if q = 0 then "0"
  else
    let sign := if q < 0 then "-" else ""
    let n := |q|
    let e := qlog10 n
    let scale : ℚ := (10 : ℚ) ^ (e - 9)
    let r : ℚ := (round (n / scale) : ℚ) * scale
    match (List.range 40).find? (fun k => (r * (10 : ℚ) ^ k).den = 1) with
    | some 0 => sign ++ toString r.num
    | some k =>
        let s := toString (r * (10 : ℚ) ^ k).num
        let s := if s.length ≤ k then
            String.mk (List.replicate (k + 1 - s.length) (Char.ofNat 48)) ++ s
          else s
        sign ++ s.dropRight k ++ "." ++ s.takeRight k
    | none => sign ++ toString r.num ++ "/" ++ toString r.den

/-- Rendering of one float component inside `str(complex(...))` (CPython
drops the `.0` of integral components there). -/
def cCompRepr (q : ℚ) : String :=
  if q.den = 1 then toString q.num else pyFloatRepr q

/-- `str(...)` of a Python complex number. -/
def complexStr (re im : ℚ) : String :=
  if re = 0 then cCompRepr im ++ "j"
  else "(" ++ cCompRepr re ++ (if im < 0 then "-" else "+") ++ cCompRepr |im| ++ "j)"

/-- The result formatting at the end of `evaluate_expression`: ints and
integral floats render as the exact integer, other floats through `.10g`,
anything else (a complex result) through `str(...)`. -/
def renderResult : PyVal → String
  | .vInt n => toString n
  | .vFloat q => if isIntq q then toString q.num else fmtG10 q
  | .vComplex re im => complexStr re im
  | .vNone => "None"

/-- Fuel for the recursive-descent parser; generous enough that it is never
exhausted on inputs the parser accepts (exhaustion models Python's
`RecursionError` on pathologically nested input). -/
def pFuel (text : String) : Nat := 5 * text.length + 30

/-- The parsing stage applied to the text: build the parser over the
lazily-run lexer (`Parser.__init__` fetches the first token) and parse. -/
def parseText (M : MathLib) (text : String) : Except PyErr AST := do
  let st ← parserInit text.data
  parse M (pFuel text) st

/-- `Interpreter.interpret` applied to the text: parse, then evaluate the
tree.  (The `if tree is None: return 0` branch of the source is unreachable:
`parse` raises instead of returning `None`.) -/
def interpret (M : MathLib) (text : String) : Except PyErr PyVal := do
  let tree ← parseText M text
  evalAST M tree

/-- Derived driver exhausting `get_next_token`, for stating lexer-level
properties (the token sequence the parser would consume). -/
def tokenizeAll : Nat → List Char → Except PyErr (List TOKEN)
  | 0, _ => .error (.recursionError "maximum recursion depth exceeded")
  | f + 1, cs => do
      let (t, rest) ← get_next_token cs
      if t.type = .EOF then return [t]
      else do
        let ts ← tokenizeAll f rest
        return t :: ts

/-- All tokens of a text, ending with the `EOF` token. -/
def tokens (text : String) : Except PyErr (List TOKEN) :=
  tokenizeAll (text.length + 1) text.data

/-- `def evaluate_expression(text: str) -> str`: empty text short-circuits to
`""`; otherwise every failure of the pipeline is caught and rendered as
`"Error: " ++ message`. -/
def evaluate_expression (M : MathLib) (text : String) : String :=
  if text = "" then ""
  else
    match interpret M text with
    | .ok result => renderResult result
    | .error e => "Error: " ++ e.msg

/-- A concrete instantiation of the foreign float library, used only to form
closed instances of theorems; the claims settled below never depend on the
float values of these fields. -/
def mathModel : MathLib where
  pi := 3141592653589793 / 1000000000000000
  e := 2718281828459045 / 1000000000000000
  sqrt := fun _ => 0
  sin := fun _ => 0
  cos := fun _ => 0
  tan := fun _ => 0
  log10 := fun _ => 0
  log := fun _ => 0
  fpow := fun _ _ => 0
  cpow := fun _ _ _ _ => (0, 0)

example : evaluate_expression mathModel "5+3" = "8" := by decide
example : evaluate_expression mathModel "10 - 2 * 3" = "4" := by decide
example : evaluate_expression mathModel "(10 - 2) * 3" = "24" := by decide
example : evaluate_expression mathModel "2**3**2" = "512" := by decide
example : evaluate_expression mathModel "10/0" = "Error: Division by zero" := by decide

/-- Whether the remaining input cannot extend a number run: empty, or a head
that is neither a digit nor a decimal point (used to state lexer lemmas). -/
def numBoundary : List Char → Bool
  | [] => true
  | c :: _ => !c.isDigit && !(c = Char.ofNat 46)

/-- The obvious exact big-integer semantics of an integer-only arithmetic
tree (`**` with a non-negative exponent); junk value `0` elsewhere. -/
def intEval : AST → ℤ
  | .Num (.vInt n) => n
  | .BinOp l "+" r => intEval l + intEval r
  | .BinOp l "-" r => intEval l - intEval r
  | .BinOp l "*" r => intEval l * intEval r
  | .BinOp l "**" r => intEval l ^ (intEval r).toNat
  | _ => 0

/-- Trees built from integer literals with `+`, `-`, `*`, and `**` whose
exponents are non-negative: on these, the interpreter computes exactly in
arbitrary-precision integers. -/
inductive IsIntArith : AST → Prop where
  | num (n : ℤ) : IsIntArith (.Num (.vInt n))
  | add {l r : AST} : IsIntArith l → IsIntArith r → IsIntArith (.BinOp l "+" r)
  | sub {l r : AST} : IsIntArith l → IsIntArith r → IsIntArith (.BinOp l "-" r)
  | mul {l r : AST} : IsIntArith l → IsIntArith r → IsIntArith (.BinOp l "*" r)
  | pow {l r : AST} : IsIntArith l → IsIntArith r → 0 ≤ intEval r →
      IsIntArith (.BinOp l "**" r)

instance exceptDecEq {ε α : Type} [DecidableEq ε] [DecidableEq α] :
    DecidableEq (Except ε α) := fun a b =>
  match a, b with
  | .ok x, .ok y => decidable_of_iff (x = y) (by simp)
  | .ok _, .error _ => isFalse (by simp)
  | .error _, .ok _ => isFalse (by simp)
  | .error e, .error f => decidable_of_iff (e = f) (by simp)

/-- The value of the float literal `0.5` produced by the lexer, in the normal
form the claims below use. -/
theorem floatRunVal_half : floatRunVal [Char.ofNat 48] [Char.ofNat 53] = mkRat 1 2 := by
  have h1 : digitsVal [Char.ofNat 48] = 0 := rfl
  have h2 : digitsVal [Char.ofNat 53] = 5 := rfl
  simp only [floatRunVal, h1, h2, List.length_singleton, Rat.mkRat_eq_divInt]
  rw [Rat.divInt_eq_div]
  push_cast
  norm_num

/-- C1.  For every input string, `evaluate_expression` returns a string and
never raises past its boundary: the empty input returns `""`, a successful
pipeline returns the formatted result, and any failure in tokenizing, parsing
or evaluation is caught and converted to the string `"Error: " ++ message`. -/
theorem evaluate_expression_total_error_boundary (M : MathLib) (text : String) :
    (text = "" ∧ evaluate_expression M text = "") ∨
    (∃ v, interpret M text = .ok v ∧ evaluate_expression M text = renderResult v) ∨
    (∃ e, interpret M text = .error e ∧
      evaluate_expression M text = "Error: " ++ e.msg) := by
  by_cases h : text = ""
  · exact Or.inl ⟨h, by simp [evaluate_expression, h]⟩
  · cases hi : interpret M text with
    | ok v => exact Or.inr (Or.inl ⟨v, rfl, by simp [evaluate_expression, h, hi]⟩)
    | error e => exact Or.inr (Or.inr ⟨e, rfl, by simp [evaluate_expression, h, hi]⟩)

/-- C2 (counterexample).  The tokenizer does not insert an inferred `*`
between `5` and `(`: `evaluate_expression "5(3+1)"` reports an unexpected
trailing token instead of returning `"20"`. -/
theorem no_implicit_mul_counterexample :
    evaluate_expression mathModel "5(3+1)" =
      "Error: Unexpected token after expression: TOKEN(PARENTHESIS, " ++
        apos ++ "(" ++ apos ++ ")" ∧
    evaluate_expression mathModel "5(3+1)" ≠ "20" := by
  constructor
  · decide
  · decide

/-- C2 (amended).  The tokenizer performs no implicit-multiplication
insertion: lexing `"5(3+1)"` yields exactly the six written tokens (plus
`EOF`) with no inferred `*` operator, and `evaluate_expression "5(3+1)"`
returns an unexpected-trailing-token error string, not `"20"`. -/
theorem no_implicit_multiplication (M : MathLib) :
    tokens "5(3+1)" = .ok
      [⟨.NUMBER, .vint 5⟩, ⟨.PARENTHESIS, .vstr "("⟩, ⟨.NUMBER, .vint 3⟩,
       ⟨.OPERATOR, .vstr "+"⟩, ⟨.NUMBER, .vint 1⟩, ⟨.PARENTHESIS, .vstr ")"⟩,
       ⟨.EOF, .vnone⟩] ∧
    evaluate_expression M "5(3+1)" =
      "Error: Unexpected token after expression: TOKEN(PARENTHESIS, " ++
        apos ++ "(" ++ apos ++ ")" := by
  exact ⟨by decide, rfl⟩

/-- C3 (counterexample).  `^` is not treated like `**`: `"2**3"` evaluates to
`"8"` but replacing `**` by `^` yields an invalid-character error string. -/
theorem caret_counterexample :
    evaluate_expression mathModel "2**3" = "8" ∧
    evaluate_expression mathModel "2^3" =
      "Error: Invalid character: " ++ apos ++ "^" ++ apos ∧
    evaluate_expression mathModel "2^3" ≠ evaluate_expression mathModel "2**3" := by
  refine ⟨by decide, by decide, by decide⟩

/-- C3 (amended).  The tokenizer rejects `^` outright: `get_next_token`
fails with `LexerError: Invalid character: ...` whenever the next character
is `^`, so `"2^3"` yields an error string while `"2**3"` yields `"8"`. -/
theorem caret_not_accepted :
    (∀ rest : List Char, get_next_token ('^' :: rest) =
      .error (.lexerError ("Invalid character: " ++ apos ++ "^" ++ apos))) ∧
    (∀ M : MathLib, evaluate_expression M "2^3" =
      "Error: Invalid character: " ++ apos ++ "^" ++ apos) ∧
    (∀ M : MathLib, evaluate_expression M "2**3" = "8") := by
  refine ⟨fun rest => rfl, fun M => rfl, fun M => rfl⟩

/-- C4 (counterexample).  The function registry has six entries, not eleven:
`asin` is not registered and calling it is an unknown-function error. -/
theorem functions_registry_counterexample :
    FUNCTIONS.length = 6 ∧ "asin" ∉ FUNCTIONS ∧
    evaluate_expression mathModel "asin(1)" = "Error: Unknown function: asin" := by
  refine ⟨by decide, by decide, by decide⟩

/-- C4 (amended).  The function registry contains exactly the six unary
functions `sqrt, sin, cos, tan, log, ln`, and a call to each of them with a
valid argument succeeds (it does not fail as an unknown function). -/
theorem functions_registry (M : MathLib) :
    FUNCTIONS = ["sqrt", "sin", "cos", "tan", "log", "ln"] ∧
    interpreterFunctions = FUNCTIONS ∧
    (∀ name : String, name ∈ FUNCTIONS →
      (interpret M (name ++ "(1)")).isOk = true) := by
  refine ⟨rfl, rfl, fun name h => ?_⟩
  simp only [FUNCTIONS, List.mem_cons, List.mem_singleton, List.not_mem_nil, or_false] at h
  rcases h with h | h | h | h | h | h
  all_goals subst h
  all_goals rfl

/-- C4 (witness). -/
theorem functions_registry_witness :
    ("sqrt" : String) ∈ FUNCTIONS ∧
    (interpret mathModel ("sqrt" ++ "(1)")).isOk = true :=
  ⟨by decide, (functions_registry mathModel).2.2 "sqrt" (by decide)⟩

/-- Helper: skipping whitespace over an all-whitespace input empties it. -/
theorem skip_whitespace_all (cs : List Char) (h : ∀ c ∈ cs, c.isWhitespace) :
    skip_whitespace cs = [] := by
  induction cs with
  | nil => rfl
  | cons c cs ih =>
      have hc : c.isWhitespace := h c (List.mem_cons_self c cs)
      simp only [skip_whitespace, hc, if_true]
      exact ih (fun d hd => h d (List.mem_cons_of_mem c hd))

/-- Helper: with any fuel of the form `g + 4`, parsing a stream whose first
token is already `EOF` fails with the unexpected-token error of `factor`. -/
theorem parse_at_eof (M : MathLib) (g : Nat) :
    parse M (g + 4) ⟨⟨.EOF, .vnone⟩, []⟩ =
      .error (.parserError "Unexpected token: TOKEN(EOF, None)") := rfl

/-- C6 (counterexample).  A whitespace-only input is not mapped to the empty
string: only the truly empty string short-circuits, and `" "` produces a
parser error string. -/
theorem whitespace_input_counterexample :
    evaluate_expression mathModel " " = "Error: Unexpected token: TOKEN(EOF, None)" ∧
    evaluate_expression mathModel " " ≠ "" ∧
    evaluate_expression mathModel "" = "" := by
  refine ⟨by decide, by decide, rfl⟩

/-- C6 (amended).  The empty input string yields the empty string, but a
nonempty whitespace-only input runs the pipeline, whose parser rejects the
immediate `EOF` token, so the façade returns an error string instead. -/
theorem empty_vs_whitespace_input (M : MathLib) :
    evaluate_expression M "" = "" ∧
    (∀ text : String, text ≠ "" → (∀ c ∈ text.data, c.isWhitespace) →
      evaluate_expression M text = "Error: Unexpected token: TOKEN(EOF, None)") := by
  refine ⟨rfl, fun text hne hws => ?_⟩
  have hsw : skip_whitespace text.data = [] := skip_whitespace_all _ hws
  have hgt : get_next_token text.data = .ok (⟨.EOF, .vnone⟩, []) := by
    unfold get_next_token
    rw [hsw]
  have hfuel : pFuel text = 5 * text.length + 26 + 4 := by
    unfold pFuel
    omega
  have hparse : parseText M text =
      .error (.parserError "Unexpected token: TOKEN(EOF, None)") := by
    unfold parseText parserInit
    rw [hgt, hfuel]
    exact parse_at_eof M (5 * text.length + 26)
  unfold evaluate_expression interpret
  rw [if_neg hne, hparse]
  rfl

/-- C6 (witness). -/
theorem empty_vs_whitespace_input_witness :
    evaluate_expression mathModel "" = "" ∧
    evaluate_expression mathModel " " = "Error: Unexpected token: TOKEN(EOF, None)" :=
  ⟨(empty_vs_whitespace_input mathModel).1,
   (empty_vs_whitespace_input mathModel).2 " " (by decide) (by decide)⟩

/-- C8.  A division whose right operand evaluates to zero fails with the
`Division by zero` interpreter error (checked before the division is
attempted), and `evaluate_expression "10/0"` returns the corresponding error
string rather than letting any exception escape the façade. -/
theorem division_by_zero (M : MathLib) :
    (∀ (left right : AST) (lv rv : PyVal),
      evalAST M left = .ok lv → evalAST M right = .ok rv → pyEqZero rv = true →
      evalAST M (.BinOp left "/" right) =
        .error (.interpreterError "Division by zero")) ∧
    evaluate_expression M "10/0" = "Error: Division by zero" := by
  constructor
  · intro left right lv rv hl hr hz
    rw [show evalAST M (.BinOp left "/" right) =
        Except.bind (evalAST M left) (fun a =>
          Except.bind (evalAST M right) (fun b => binOpApply M "/" a b)) from rfl,
      hl, hr]
    show binOpApply M "/" lv rv = _
    unfold binOpApply
    rw [hz]
    rfl
  · rfl

/-- C8 (witness). -/
theorem division_by_zero_witness :
    evalAST mathModel (.BinOp (.Num (.vInt 10)) "/" (.Num (.vInt 0))) =
      .error (.interpreterError "Division by zero") ∧
    evaluate_expression mathModel "10/0" = "Error: Division by zero" :=
  ⟨(division_by_zero mathModel).1 (.Num (.vInt 10)) (.Num (.vInt 0))
      (.vInt 10) (.vInt 0) rfl rfl (by decide),
   (division_by_zero mathModel).2⟩

/-- C9.  `visit_FuncCall` evaluates its argument first (a failing argument
propagates its own error), then applies the domain checks before invoking the
function: `sqrt` of a negative argument and `log`/`ln` of a non-positive
argument fail with the corresponding domain-error message, and
`evaluate_expression "sqrt(-4)"` returns the domain-error string. -/
theorem function_domain_checks (M : MathLib) :
    (∀ (name : String) (argument : AST) (e : PyErr), name ∈ interpreterFunctions →
      evalAST M argument = .error e →
      evalAST M (.FuncCall name argument) = .error e) ∧
    (∀ (argument : AST) (v : PyVal),
      evalAST M argument = .ok v → pyLtZero v = .ok true →
      evalAST M (.FuncCall "sqrt" argument) =
        .error (.interpreterError "Domain error: sqrt of negative number")) ∧
    (∀ (name : String) (argument : AST) (v : PyVal),
      (name = "log" ∨ name = "ln") →
      evalAST M argument = .ok v → pyLeZero v = .ok true →
      evalAST M (.FuncCall name argument) =
        .error (.interpreterError "Domain error: log of non-positive number")) ∧
    evaluate_expression M "sqrt(-4)" = "Error: Domain error: sqrt of negative number" := by
  refine ⟨?_, ?_, ?_, rfl⟩
  · intro name argument e hmem herr
    rw [show evalAST M (.FuncCall name argument) =
        (if name ∉ interpreterFunctions then
          .error (.interpreterError ("Unknown function: " ++ name))
        else Except.bind (evalAST M argument) (fun v => funcCallApply M name v)) from rfl,
      if_neg (not_not_intro hmem), herr]
    rfl
  · intro argument v hv hlt
    rw [show evalAST M (.FuncCall "sqrt" argument) =
        Except.bind (evalAST M argument) (fun v2 => funcCallApply M "sqrt" v2) from rfl, hv]
    show funcCallApply M "sqrt" v = _
    rw [show funcCallApply M "sqrt" v =
        Except.bind (pyLtZero v) (fun c1 =>
          if c1 then
            Except.error (.interpreterError "Domain error: sqrt of negative number")
          else Except.bind
            (if ("sqrt" : String) ∈ ["log", "ln"] then pyLeZero v else pure false)
            (fun c2 =>
              if c2 then
                Except.error (.interpreterError "Domain error: log of non-positive number")
              else applyMathFunc M "sqrt" v)) from rfl, hlt]
    rfl
  · intro name argument v hname hv hle
    rcases hname with h | h
    all_goals subst h
    · rw [show evalAST M (.FuncCall "log" argument) =
          Except.bind (evalAST M argument) (fun v2 => funcCallApply M "log" v2) from rfl, hv]
      show funcCallApply M "log" v = _
      rw [show funcCallApply M "log" v =
          Except.bind (pyLeZero v) (fun c2 =>
            if c2 then
              Except.error (.interpreterError "Domain error: log of non-positive number")
            else applyMathFunc M "log" v) from rfl, hle]
      rfl
    · rw [show evalAST M (.FuncCall "ln" argument) =
          Except.bind (evalAST M argument) (fun v2 => funcCallApply M "ln" v2) from rfl, hv]
      show funcCallApply M "ln" v = _
      rw [show funcCallApply M "ln" v =
          Except.bind (pyLeZero v) (fun c2 =>
            if c2 then
              Except.error (.interpreterError "Domain error: log of non-positive number")
            else applyMathFunc M "ln" v) from rfl, hle]
      rfl

/-- C9 (witness). -/
theorem function_domain_checks_witness :
    evalAST mathModel (.FuncCall "sqrt" (.Num (.vInt (-4)))) =
      .error (.interpreterError "Domain error: sqrt of negative number") ∧
    evalAST mathModel (.FuncCall "ln" (.Num (.vInt 0))) =
      .error (.interpreterError "Domain error: log of non-positive number") ∧
    ("sqrt" : String) ∈ interpreterFunctions ∧
    evaluate_expression mathModel "sqrt(-4)" = "Error: Domain error: sqrt of negative number" :=
  ⟨(function_domain_checks mathModel).2.1 (.Num (.vInt (-4))) (.vInt (-4)) rfl (by decide),
   (function_domain_checks mathModel).2.2.1 "ln" (.Num (.vInt 0)) (.vInt 0)
     (Or.inr rfl) rfl (by decide),
   by decide,
   (function_domain_checks mathModel).2.2.2⟩

/-- Helper: the parse tree of `"(-8)**0.5"`. -/
theorem parse_neg8_pow_half (M : MathLib) :
    parseText M "(-8)**0.5" =
      .ok (.BinOp (.UnaryOp "-" (.Num (.vInt 8))) "**"
        (.Num (.vFloat (floatRunVal [Char.ofNat 48] [Char.ofNat 53])))) := rfl

/-- C5 (counterexample).  `evaluate_expression "(-8)**0.5"` does not yield an
error string: the pipeline succeeds with a Python `complex` value (here
rendered with the concrete model library), and the returned string is the
`str()` of that complex number, which does not start with `"Error"`. -/
theorem neg_base_power_counterexample :
    interpret mathModel "(-8)**0.5" = .ok (.vComplex 0 0) ∧
    evaluate_expression mathModel "(-8)**0.5" = "0j" ∧
    ("0j" : String).data.take 5 ≠ ("Error" : String).data := by
  have hi : interpret mathModel "(-8)**0.5" =
      Except.bind (parseText mathModel "(-8)**0.5") (fun tree => evalAST mathModel tree) := rfl
  have h1 : interpret mathModel "(-8)**0.5" = .ok (.vComplex 0 0) := by
    rw [hi, parse_neg8_pow_half, floatRunVal_half]
    rfl
  refine ⟨h1, ?_, by decide⟩
  unfold evaluate_expression
  rw [if_neg (by decide), h1]
  rfl

/-- C5 (amended).  Evaluating `**` with a negative base and a non-integer
exponent does not raise a `DomainError`: Python real-power semantics produce
a `complex` value (via the complex power routine), which the façade renders
through `str(...)` as an ordinary (non-error) result string; in particular
`evaluate_expression "(-8)**0.5"` returns the `str()` of the complex power,
not an error string. -/
theorem neg_base_noninteger_power_is_complex (M : MathLib) :
    interpret M "(-8)**0.5" =
      .ok (.vComplex (M.cpow (-8) 0 (mkRat 1 2) 0).1 (M.cpow (-8) 0 (mkRat 1 2) 0).2) ∧
    evaluate_expression M "(-8)**0.5" =
      complexStr (M.cpow (-8) 0 (mkRat 1 2) 0).1 (M.cpow (-8) 0 (mkRat 1 2) 0).2 := by
  have hi : interpret M "(-8)**0.5" =
      Except.bind (parseText M "(-8)**0.5") (fun tree => evalAST M tree) := rfl
  have h1 : interpret M "(-8)**0.5" =
      .ok (.vComplex (M.cpow (-8) 0 (mkRat 1 2) 0).1 (M.cpow (-8) 0 (mkRat 1 2) 0).2) := by
    rw [hi, parse_neg8_pow_half, floatRunVal_half]
    rfl
  refine ⟨h1, ?_⟩
  unfold evaluate_expression
  rw [if_neg (by decide), h1]
  rfl

theorem except_bind_ok {α β : Type} (a : α) (f : α → Except PyErr β) :
    (Except.ok a >>= f) = f a := rfl

theorem digit_not_whitespace (c : Char) (h : c.isDigit = true) :
    c.isWhitespace = false := by
  by_contra hw
  simp only [Bool.not_eq_false] at hw
  simp only [Char.isWhitespace, Bool.or_eq_true, decide_eq_true_eq] at hw
  rcases hw with ((h1 | h1) | h1) | h1
  all_goals subst h1
  all_goals exact absurd h (by decide)

theorem skip_whitespace_cons_of_not (c : Char) (cs : List Char)
    (h : c.isWhitespace = false) : skip_whitespace (c :: cs) = c :: cs := by
  simp [skip_whitespace, h]

theorem numRun_digits (ds rest : List Char) (hds : ∀ c ∈ ds, c.isDigit)
    (hrest : numBoundary rest = true) : numRun (ds ++ rest) = (ds, rest) := by
  induction ds with
  | nil =>
      simp only [List.nil_append]
      cases rest with
      | nil => rfl
      | cons c cs =>
          simp only [numBoundary, Bool.and_eq_true, Bool.not_eq_true',
            decide_eq_false_iff_not] at hrest
          simp [numRun, hrest.1, hrest.2]
  | cons d ds ih =>
      have hd : d.isDigit = true := hds d (List.mem_cons_self d ds)
      have ih2 := ih (fun c hc => hds c (List.mem_cons_of_mem d hc))
      simp [numRun, hd, ih2]

theorem digits_not_contains_dot (ds : List Char) (hds : ∀ c ∈ ds, c.isDigit) :
    ds.contains (Char.ofNat 46) = false := by
  induction ds with
  | nil => rfl
  | cons d ds ih =>
      have hd : d.isDigit = true := hds d (List.mem_cons_self d ds)
      have ih2 := ih (fun c hc => hds c (List.mem_cons_of_mem d hc))
      have hbe : (Char.ofNat 46 == d) = false := by
        rw [beq_eq_false_iff_ne]
        intro he
        rw [← he] at hd
        exact absurd hd (by decide)
      simp [List.contains, List.elem, hbe] at ih2 ⊢
      exact ih2

theorem get_next_token_digits (ds rest : List Char) (hne : ds ≠ [])
    (hds : ∀ c ∈ ds, c.isDigit) (hrest : numBoundary rest = true) :
    get_next_token (ds ++ rest) = .ok (⟨.NUMBER, .vint (digitsVal ds)⟩, rest) := by
  cases ds with
  | nil => exact absurd rfl hne
  | cons c cs =>
      have hc : c.isDigit = true := hds c (List.mem_cons_self c cs)
      have hrun : numRun (c :: (cs ++ rest)) = (c :: cs, rest) := by
        rw [← List.cons_append]
        exact numRun_digits (c :: cs) rest hds hrest
      unfold get_next_token
      rw [List.cons_append, skip_whitespace_cons_of_not c _ (digit_not_whitespace c hc)]
      simp only [hc, if_true, eq_self_iff_true]
      rw [hrun]
      unfold numFromRun
      rw [digits_not_contains_dot (c :: cs) hds]
      rfl

/-- Helper: `Except.bind` on a success. -/
theorem except_bind_ok_b {α β : Type} (a : α) (f : α → Except PyErr β) :
    Except.bind (Except.ok a) f = f a := rfl

/-- Helper: one-step unfolding of `power` at positive fuel. -/
theorem power_succ_eq (M : MathLib) (g : Nat) (st : PState) :
    power M (g + 1) st =
      Except.bind (factor M g st) (fun p =>
        if p.2.cur.type = .OPERATOR ∧ p.2.cur.value = .vstr "**" then
          Except.bind (eat p.2 .OPERATOR (some "**")) (fun st2 =>
            Except.bind (power M g st2) (fun q => pure (.BinOp p.1 "**" q.1, q.2)))
        else pure p) := rfl

/-- Helper: one-step unfolding of `term` at positive fuel. -/
theorem term_succ_eq (M : MathLib) (g : Nat) (st : PState) :
    term M (g + 1) st =
      Except.bind (power M g st) (fun p => termLoop M g p.1 p.2) := rfl

/-- Helper: one-step unfolding of `expr` at positive fuel. -/
theorem expr_succ_eq (M : MathLib) (g : Nat) (st : PState) :
    expr M (g + 1) st =
      Except.bind (term M g st) (fun p => exprLoop M g p.1 p.2) := rfl

/-- Helper: `parse` as a bind over `expr` plus the trailing-`EOF` check. -/
theorem parse_bind_eq (M : MathLib) (fuel : Nat) (st : PState) :
    parse M fuel st =
      Except.bind (expr M fuel st) (fun p =>
        if p.2.cur.type ≠ .EOF then
          .error (.parserError ("Unexpected token after expression: " ++ tokenRepr p.2.cur))
        else pure p.1) := rfl

/-- Helper: `visit_Num`. -/
theorem evalAST_num (M : MathLib) (v : PyVal) : evalAST M (.Num v) = .ok v := rfl

/-- Helper: `visit_BinOp` as evaluation of the operands followed by the
operator dispatch. -/
theorem evalAST_binop (M : MathLib) (l r : AST) (op : String) :
    evalAST M (.BinOp l op r) =
      Except.bind (evalAST M l) (fun a =>
        Except.bind (evalAST M r) (fun b => binOpApply M op a b)) := rfl

/-- Helper: a chain of three numerals joined by `**` parses right-nested. -/
theorem parse_pow_chain (M : MathLib) (d1 d2 d3 : List Char)
    (h1 : d1 ≠ []) (h2 : d2 ≠ []) (h3 : d3 ≠ [])
    (hd1 : ∀ c ∈ d1, c.isDigit) (hd2 : ∀ c ∈ d2, c.isDigit) (hd3 : ∀ c ∈ d3, c.isDigit) :
    parseText M (String.mk (d1 ++ ('*' :: '*' :: (d2 ++ ('*' :: '*' :: d3))))) =
      .ok (.BinOp (.Num (.vInt (digitsVal d1))) "**"
        (.BinOp (.Num (.vInt (digitsVal d2))) "**" (.Num (.vInt (digitsVal d3))))) := by
  have e1 : get_next_token (d1 ++ ('*' :: '*' :: (d2 ++ ('*' :: '*' :: d3)))) =
      .ok (⟨.NUMBER, .vint (digitsVal d1)⟩, '*' :: '*' :: (d2 ++ ('*' :: '*' :: d3))) :=
    get_next_token_digits d1 ('*' :: '*' :: (d2 ++ ('*' :: '*' :: d3))) h1 hd1 rfl
  have e3 : get_next_token (d2 ++ ('*' :: '*' :: d3)) =
      .ok (⟨.NUMBER, .vint (digitsVal d2)⟩, '*' :: '*' :: d3) :=
    get_next_token_digits d2 ('*' :: '*' :: d3) h2 hd2 rfl
  have e5 : get_next_token d3 = .ok (⟨.NUMBER, .vint (digitsVal d3)⟩, []) := by
    have h := get_next_token_digits d3 [] h3 hd3 rfl
    rwa [List.append_nil] at h
  have heat1 : eat ⟨⟨.OPERATOR, .vstr "**"⟩, d2 ++ ('*' :: '*' :: d3)⟩ .OPERATOR (some "**") =
      .ok ⟨⟨.NUMBER, .vint (digitsVal d2)⟩, '*' :: '*' :: d3⟩ := by
    unfold eat
    rw [if_pos ⟨rfl, Or.inr rfl⟩]
    show Except.bind (get_next_token (d2 ++ ('*' :: '*' :: d3))) _ = _
    rw [e3]
    rfl
  have heat3 : eat ⟨⟨.OPERATOR, .vstr "**"⟩, d3⟩ .OPERATOR (some "**") =
      .ok ⟨⟨.NUMBER, .vint (digitsVal d3)⟩, []⟩ := by
    unfold eat
    rw [if_pos ⟨rfl, Or.inr rfl⟩]
    show Except.bind (get_next_token d3) _ = _
    rw [e5]
    rfl
  have hfacA : ∀ g : Nat, factor M (g + 1)
      ⟨⟨.NUMBER, .vint (digitsVal d1)⟩, '*' :: '*' :: (d2 ++ ('*' :: '*' :: d3))⟩ =
      .ok (.Num (.vInt (digitsVal d1)),
        ⟨⟨.OPERATOR, .vstr "**"⟩, d2 ++ ('*' :: '*' :: d3)⟩) := fun g => rfl
  have hfacB : ∀ g : Nat, factor M (g + 1)
      ⟨⟨.NUMBER, .vint (digitsVal d2)⟩, '*' :: '*' :: d3⟩ =
      .ok (.Num (.vInt (digitsVal d2)), ⟨⟨.OPERATOR, .vstr "**"⟩, d3⟩) := fun g => rfl
  have hpowC : ∀ g : Nat, power M (g + 2) ⟨⟨.NUMBER, .vint (digitsVal d3)⟩, []⟩ =
      .ok (.Num (.vInt (digitsVal d3)), ⟨⟨.EOF, .vnone⟩, []⟩) := fun g => rfl
  have hpowB : ∀ g : Nat, power M (g + 5)
      ⟨⟨.NUMBER, .vint (digitsVal d2)⟩, '*' :: '*' :: d3⟩ =
      .ok (.BinOp (.Num (.vInt (digitsVal d2))) "**" (.Num (.vInt (digitsVal d3))),
        ⟨⟨.EOF, .vnone⟩, []⟩) := by
    intro g
    rw [power_succ_eq M (g + 4), hfacB (g + 3), except_bind_ok_b]
    rw [if_pos ⟨rfl, rfl⟩, heat3, except_bind_ok_b, hpowC (g + 2), except_bind_ok_b]
    rfl
  have hpowA : ∀ g : Nat, power M (g + 7)
      ⟨⟨.NUMBER, .vint (digitsVal d1)⟩, '*' :: '*' :: (d2 ++ ('*' :: '*' :: d3))⟩ =
      .ok (.BinOp (.Num (.vInt (digitsVal d1)))
          "**" (.BinOp (.Num (.vInt (digitsVal d2))) "**" (.Num (.vInt (digitsVal d3)))),
        ⟨⟨.EOF, .vnone⟩, []⟩) := by
    intro g
    rw [power_succ_eq M (g + 6), hfacA (g + 5), except_bind_ok_b]
    rw [if_pos ⟨rfl, rfl⟩, heat1, except_bind_ok_b, hpowB (g + 1), except_bind_ok_b]
    rfl
  have htermLoop : ∀ (g : Nat) (node : AST), termLoop M (g + 1) node ⟨⟨.EOF, .vnone⟩, []⟩ =
      .ok (node, ⟨⟨.EOF, .vnone⟩, []⟩) := fun g node => rfl
  have hexprLoop : ∀ (g : Nat) (node : AST), exprLoop M (g + 1) node ⟨⟨.EOF, .vnone⟩, []⟩ =
      .ok (node, ⟨⟨.EOF, .vnone⟩, []⟩) := fun g node => rfl
  have hinit : parserInit (String.mk (d1 ++ ('*' :: '*' :: (d2 ++ ('*' :: '*' :: d3))))).data =
      .ok ⟨⟨.NUMBER, .vint (digitsVal d1)⟩, '*' :: '*' :: (d2 ++ ('*' :: '*' :: d3))⟩ := by
    unfold parserInit
    show Except.bind (get_next_token (d1 ++ ('*' :: '*' :: (d2 ++ ('*' :: '*' :: d3))))) _ = _
    rw [e1]
    rfl
  have hstep : parseText M (String.mk (d1 ++ ('*' :: '*' :: (d2 ++ ('*' :: '*' :: d3))))) =
      parse M (pFuel (String.mk (d1 ++ ('*' :: '*' :: (d2 ++ ('*' :: '*' :: d3))))))
        ⟨⟨.NUMBER, .vint (digitsVal d1)⟩, '*' :: '*' :: (d2 ++ ('*' :: '*' :: d3))⟩ := by
    unfold parseText
    rw [hinit]
    rfl
  have hfuel : pFuel (String.mk (d1 ++ ('*' :: '*' :: (d2 ++ ('*' :: '*' :: d3))))) =
      5 * (d1 ++ ('*' :: '*' :: (d2 ++ ('*' :: '*' :: d3)))).length + 21 + 9 := by
    show 5 * (d1 ++ ('*' :: '*' :: (d2 ++ ('*' :: '*' :: d3)))).length + 30 = _
    omega
  rw [hstep, hfuel, parse_bind_eq,
    expr_succ_eq M (5 * (d1 ++ ('*' :: '*' :: (d2 ++ ('*' :: '*' :: d3)))).length + 21 + 8),
    term_succ_eq M (5 * (d1 ++ ('*' :: '*' :: (d2 ++ ('*' :: '*' :: d3)))).length + 21 + 7),
    hpowA (5 * (d1 ++ ('*' :: '*' :: (d2 ++ ('*' :: '*' :: d3)))).length + 21),
    except_bind_ok_b,
    htermLoop (5 * (d1 ++ ('*' :: '*' :: (d2 ++ ('*' :: '*' :: d3)))).length + 21 + 6),
    except_bind_ok_b,
    hexprLoop (5 * (d1 ++ ('*' :: '*' :: (d2 ++ ('*' :: '*' :: d3)))).length + 21 + 7),
    except_bind_ok_b]
  rfl

/-- C7.  Exponentiation is right-associative: for any three numerals, the
chain `a**b**c` is parsed as `a ** (b ** c)` and evaluated accordingly (in
exact integer arithmetic), and in particular `evaluate_expression "2**3**2"`
returns `"512"` (`2^(3^2)`, not `(2^3)^2 = 64`). -/
theorem exponentiation_right_associative (M : MathLib) (d1 d2 d3 : List Char)
    (h1 : d1 ≠ []) (h2 : d2 ≠ []) (h3 : d3 ≠ [])
    (hd1 : ∀ c ∈ d1, c.isDigit) (hd2 : ∀ c ∈ d2, c.isDigit) (hd3 : ∀ c ∈ d3, c.isDigit) :
    parseText M (String.mk (d1 ++ ('*' :: '*' :: (d2 ++ ('*' :: '*' :: d3))))) =
      .ok (.BinOp (.Num (.vInt (digitsVal d1))) "**"
        (.BinOp (.Num (.vInt (digitsVal d2))) "**" (.Num (.vInt (digitsVal d3))))) ∧
    interpret M (String.mk (d1 ++ ('*' :: '*' :: (d2 ++ ('*' :: '*' :: d3))))) =
      .ok (.vInt ((digitsVal d1 : ℤ) ^ (digitsVal d2 ^ digitsVal d3 : ℕ))) ∧
    evaluate_expression M "2**3**2" = "512" := by
  have hp := parse_pow_chain M d1 d2 d3 h1 h2 h3 hd1 hd2 hd3
  have hinner : binOpApply M "**" (.vInt (digitsVal d2 : ℤ)) (.vInt (digitsVal d3 : ℤ)) =
      .ok (.vInt ((digitsVal d2 : ℤ) ^ (digitsVal d3 : ℕ))) := by
    show pyPow M (.vInt (digitsVal d2 : ℤ)) (.vInt (digitsVal d3 : ℤ)) = _
    unfold pyPow
    dsimp only
    rw [if_pos (Int.natCast_nonneg (digitsVal d3))]
    rw [Int.toNat_natCast]
  have houter : binOpApply M "**" (.vInt (digitsVal d1 : ℤ))
      (.vInt ((digitsVal d2 : ℤ) ^ (digitsVal d3 : ℕ))) =
      .ok (.vInt ((digitsVal d1 : ℤ) ^ (digitsVal d2 ^ digitsVal d3 : ℕ))) := by
    show pyPow M (.vInt (digitsVal d1 : ℤ)) (.vInt ((digitsVal d2 : ℤ) ^ (digitsVal d3 : ℕ))) = _
    unfold pyPow
    dsimp only
    rw [if_pos (pow_nonneg (Int.natCast_nonneg (digitsVal d2)) _)]
    rw [show ((digitsVal d2 : ℤ) ^ (digitsVal d3 : ℕ)).toNat =
        digitsVal d2 ^ digitsVal d3 from by rw [← Nat.cast_pow, Int.toNat_natCast]]
  refine ⟨hp, ?_, rfl⟩
  have hi : interpret M (String.mk (d1 ++ ('*' :: '*' :: (d2 ++ ('*' :: '*' :: d3))))) =
      Except.bind (parseText M (String.mk (d1 ++ ('*' :: '*' :: (d2 ++ ('*' :: '*' :: d3))))))
        (fun t => evalAST M t) := rfl
  rw [hi, hp, except_bind_ok_b]
  simp only [evalAST_binop, evalAST_num, except_bind_ok_b]
  rw [hinner, except_bind_ok_b, houter]

/-- C7 (witness). -/
theorem exponentiation_right_associative_witness :
    parseText mathModel (String.mk (['2'] ++ ('*' :: '*' :: (['3'] ++ ('*' :: '*' :: ['2']))))) =
      .ok (.BinOp (.Num (.vInt (digitsVal ['2']))) "**"
        (.BinOp (.Num (.vInt (digitsVal ['3']))) "**" (.Num (.vInt (digitsVal ['2']))))) ∧
    interpret mathModel (String.mk (['2'] ++ ('*' :: '*' :: (['3'] ++ ('*' :: '*' :: ['2']))))) =
      .ok (.vInt ((digitsVal ['2'] : ℤ) ^ (digitsVal ['3'] ^ digitsVal ['2'] : ℕ))) ∧
    evaluate_expression mathModel "2**3**2" = "512" :=
  exponentiation_right_associative mathModel ['2'] ['3'] ['2']
    (by decide) (by decide) (by decide) (by decide) (by decide) (by decide)

/-- C10.  Every numeral written without a decimal point is lexed as an exact
integer token, the operators `+`, `-`, `*`, and `**` (with non-negative
exponent) over integer values are computed in exact arbitrary-precision
integer arithmetic, and the result is rendered as the exact integer string:
`evaluate_expression "10**30+1"` returns the exact 31-digit integer. -/
theorem integer_arithmetic_exact (M : MathLib) :
    (∀ (ds rest : List Char), ds ≠ [] → (∀ c ∈ ds, c.isDigit) →
      numBoundary rest = true →
      get_next_token (ds ++ rest) = .ok (⟨.NUMBER, .vint (digitsVal ds)⟩, rest)) ∧
    (∀ t : AST, IsIntArith t → evalAST M t = .ok (.vInt (intEval t))) ∧
    evaluate_expression M "10**30+1" = "1000000000000000000000000000001" := by
  refine ⟨fun ds rest h1 h2 h3 => get_next_token_digits ds rest h1 h2 h3, ?_, ?_⟩
  · intro t ht
    induction ht with
    | num n => rfl
    | add hl hr ihl ihr =>
        rw [evalAST_binop, ihl, ihr, except_bind_ok_b, except_bind_ok_b]
        rfl
    | sub hl hr ihl ihr =>
        rw [evalAST_binop, ihl, ihr, except_bind_ok_b, except_bind_ok_b]
        rfl
    | mul hl hr ihl ihr =>
        rw [evalAST_binop, ihl, ihr, except_bind_ok_b, except_bind_ok_b]
        rfl
    | @pow l r hl hr hnn ihl ihr =>
        rw [evalAST_binop, ihl, ihr, except_bind_ok_b, except_bind_ok_b]
        show pyPow M (.vInt (intEval l)) (.vInt (intEval r)) = _
        unfold pyPow
        dsimp only
        rw [if_pos hnn]
        rfl
  · rfl

/-- C10 (witness). -/
theorem integer_arithmetic_exact_witness :
    get_next_token (['4', '2'] ++ []) =
      .ok (⟨.NUMBER, .vint (digitsVal ['4', '2'])⟩, []) ∧
    evalAST mathModel (.BinOp (.Num (.vInt 10)) "**" (.Num (.vInt 30))) =
      .ok (.vInt (intEval (.BinOp (.Num (.vInt 10)) "**" (.Num (.vInt 30))))) ∧
    evaluate_expression mathModel "10**30+1" = "1000000000000000000000000000001" :=
  ⟨(integer_arithmetic_exact mathModel).1 ['4', '2'] [] (by decide) (by decide) (by decide),
   (integer_arithmetic_exact mathModel).2.1 _ (IsIntArith.pow (.num 10) (.num 30) (by decide)),
   (integer_arithmetic_exact mathModel).2.2⟩
